import Mathlib

/-!
Verification of the session (auth) and presence/sync (socket) managers of the
echoes-of-you-and-i mobile client, shallowly embedded from the TypeScript
source (`AuthContext`, `SocketContext`, `src/lib/storage.ts`).

Stateful React code is modelled by explicit state passing: each operation is a
pure function from the current in-memory state, the persisted storage and the
outcomes of the external calls it performs (profile fetch, server logout,
browser auth session) to the resulting state, storage and the list of states
it pushed via setState.  JavaScript truthiness on strings (null and the empty
string are falsy) is modelled explicitly.
-/

namespace Echoes

/-- Persisted user record, from storage.ts (StoredUser). Image objects are
modelled by their url strings. -/
structure StoredUser where
  id : String
  spotifyId : String
  displayName : String
  email : Option String
  images : Option (List String)
  partnerId : Option String
deriving Repr, DecidableEq

/-- Profile payload of the backend, from api.ts (User). -/
structure ApiUser where
  id : String
  displayName : String
  email : Option String
  images : Option (List String)
deriving Repr, DecidableEq

/-- Response of api.getMe, from api.ts (AuthMeResponse). -/
structure AuthMeResponse where
  user : ApiUser
  partnerId : Option String
  tokenExpiresAt : String
deriving Repr, DecidableEq

/-- Abstract storage/runtime error (the thrown value is never inspected). -/
inductive Err
  | err
deriving Repr, DecidableEq

/-- JavaScript truthiness of a nullable string: null and the empty string are
falsy, every other string is truthy. -/
def truthyS : Option String → Bool
  | none => false
  | some s => s ≠ ""

/- ------------------------------------------------------------------
Raw storage reads, storage.ts.  AsyncStorage.getItem may resolve with a
string or null, or reject; its outcome is a parameter.  JSON.parse may
throw on a corrupt record; it is a parameter as well.  The functions are
written in Except so that an uncaught exception would be visible as an
error value; the try/catch of the source maps every error to ok null.
------------------------------------------------------------------ -/

/-- storage.ts getStoredSpotifyId: try-reads the identity key, returns null
on a storage error. -/
def getStoredSpotifyId (getItem : Except Err (Option String)) :
    Except Err (Option String) :=
  match getItem with
  | .ok v => .ok v
  | .error _ => .ok none

/-- storage.ts getStoredUser: try-reads the user-data key and JSON-parses it;
a falsy (null or empty) raw value yields null, a storage error or a parse
error yields null. -/
def getStoredUser (getItem : Except Err (Option String))
    (parse : String → Except Err StoredUser) :
    Except Err (Option StoredUser) :=
  match getItem with
  | .error _ => .ok none
  | .ok raw =>
    if truthyS raw then
      match raw with
      | some json =>
        match parse json with
        | .ok u => .ok (some u)
        | .error _ => .ok none
      | none => .ok none
    else
      .ok none

/- ------------------------------------------------------------------
Auth session model, AuthContext (src/unnamed/part_009).
Storage is viewed at the parsed level: a nullable identity string and a
nullable user record (a corrupt persisted record reads back as null, as
established for getStoredUser above).
------------------------------------------------------------------ -/

/-- In-memory auth state (AuthState of AuthContext). -/
structure AuthState where
  isLoading : Bool
  isAuthenticated : Bool
  user : Option StoredUser
  spotifyId : Option String
  partnerId : Option String
deriving Repr, DecidableEq

/-- Initial state installed by useState in AuthProvider. -/
def initialAuthState : AuthState :=
  { isLoading := true, isAuthenticated := false, user := none,
    spotifyId := none, partnerId := none }

/-- The fully signed-out in-memory state written by the failure and logout
branches. -/
def clearedAuthState : AuthState :=
  { isLoading := false, isAuthenticated := false, user := none,
    spotifyId := none, partnerId := none }

/-- Persisted auth storage: the two keyed records of storage.ts. -/
structure AuthStorage where
  spotifyId : Option String
  userData : Option StoredUser
deriving Repr, DecidableEq

/-- Storage with both records absent. -/
def emptyAuthStorage : AuthStorage := { spotifyId := none, userData := none }

/-- storage.ts clearAuthData: removes both records. -/
def clearAuthData (_s : AuthStorage) : AuthStorage := emptyAuthStorage

/-- storage.ts setStoredSpotifyId. -/
def setStoredSpotifyId (id : String) (s : AuthStorage) : AuthStorage :=
  { s with spotifyId := some id }

/-- storage.ts setStoredUser. -/
def setStoredUser (u : StoredUser) (s : AuthStorage) : AuthStorage :=
  { s with userData := some u }

/-- The StoredUser built from an AuthMeResponse in initializeAuth,
handleAuthSuccess and refreshUser (identical in all three). -/
def mkStoredUser (r : AuthMeResponse) : StoredUser :=
  { id := r.user.id, spotifyId := r.user.id, displayName := r.user.displayName,
    email := r.user.email, images := r.user.images, partnerId := r.partnerId }

/-- Result of one auth operation: final state, final storage, every state
pushed through setState in order, and whether the operation rejected. -/
structure OpResult where
  state : AuthState
  storage : AuthStorage
  emitted : List AuthState
  threw : Bool
deriving Repr, DecidableEq

/-- AuthContext initializeAuth: read both persisted records; if both are
truthy verify the session with api.getMe (outcome is the fetch parameter),
refreshing the stored user on success and clearing storage on failure;
otherwise settle unauthenticated without touching storage. -/
def initializeAuth (store : AuthStorage)
    (fetch : Except Err AuthMeResponse) : OpResult :=
  let spotifyId := store.spotifyId
  let storedUser := store.userData
  if truthyS spotifyId && storedUser.isSome then
    match fetch with
    | .ok response =>
      let user := mkStoredUser response
      let s : AuthState :=
        { isLoading := false, isAuthenticated := true, user := some user,
          spotifyId := spotifyId, partnerId := response.partnerId }
      { state := s, storage := setStoredUser user store, emitted := [s],
        threw := false }
    | .error _ =>
      { state := clearedAuthState, storage := clearAuthData store,
        emitted := [clearedAuthState], threw := false }
  else
    { state := clearedAuthState, storage := store,
      emitted := [clearedAuthState], threw := false }

/-- Outcome of WebBrowser.openAuthSessionAsync as login consumes it: either a
success result whose callback URL carries an optional spotifyId query
parameter, or any non-success result (cancel, dismiss, failure). -/
inductive AuthSessionOutcome
  | success (spotifyIdParam : Option String)
  | other
deriving Repr, DecidableEq

/-- AuthContext login: set loading, open the auth session; on a success
result with a truthy spotifyId in the URL run handleAuthSuccess (fetch
profile, persist identity and user, set authenticated; a fetch error is
rethrown into login's catch and swallowed there); on a success result
without an identity only log; finally clear the loading flag.  The promise
never rejects. -/
def login (prev : AuthState) (store : AuthStorage)
    (cb : AuthSessionOutcome) (fetch : Except Err AuthMeResponse) : OpResult :=
  let s1 : AuthState := { prev with isLoading := true }
  match cb with
  | .success p =>
    if truthyS p then
      match p, fetch with
      | some id, .ok response =>
        let user := mkStoredUser response
        let s2 : AuthState :=
          { isLoading := false, isAuthenticated := true, user := some user,
            spotifyId := some id, partnerId := response.partnerId }
        { state := { s2 with isLoading := false },
          storage := setStoredUser user (setStoredSpotifyId id store),
          emitted := [s1, s2, { s2 with isLoading := false }], threw := false }
      | _, .error _ =>
        { state := { s1 with isLoading := false }, storage := store,
          emitted := [s1, { s1 with isLoading := false }], threw := false }
      | none, .ok _ =>
        { state := { s1 with isLoading := false }, storage := store,
          emitted := [s1, { s1 with isLoading := false }], threw := false }
    else
      { state := { s1 with isLoading := false }, storage := store,
        emitted := [s1, { s1 with isLoading := false }], threw := false }
  | .other =>
    { state := { s1 with isLoading := false }, storage := store,
      emitted := [s1, { s1 with isLoading := false }], threw := false }

/-- AuthContext logout: set loading; if an identity is held call api.logout
(outcome is a parameter, its error lands in the catch); in either the try
or the catch clear persisted storage and write the signed-out state. -/
def logout (prev : AuthState) (store : AuthStorage)
    (server : Except Err Unit) : OpResult :=
  let s1 : AuthState := { prev with isLoading := true }
  if truthyS prev.spotifyId then
    match server with
    | .ok _ =>
      { state := clearedAuthState, storage := clearAuthData store,
        emitted := [s1, clearedAuthState], threw := false }
    | .error _ =>
      { state := clearedAuthState, storage := clearAuthData store,
        emitted := [s1, clearedAuthState], threw := false }
  else
    { state := clearedAuthState, storage := clearAuthData store,
      emitted := [s1, clearedAuthState], threw := false }

/-- AuthContext refreshUser: no-op without a truthy identity; otherwise fetch
the profile, and only on success persist the fresh user and update the
user and partnerId fields of the state (a fetch error is logged and
swallowed). -/
def refreshUser (prev : AuthState) (store : AuthStorage)
    (fetch : Except Err AuthMeResponse) : OpResult :=
  if truthyS prev.spotifyId then
    match fetch with
    | .ok response =>
      let user := mkStoredUser response
      let s : AuthState :=
        { prev with user := some user, partnerId := response.partnerId }
      { state := s, storage := setStoredUser user store, emitted := [s],
        threw := false }
    | .error _ =>
      { state := prev, storage := store, emitted := [], threw := false }
  else
    { state := prev, storage := store, emitted := [], threw := false }

/- ------------------------------------------------------------------
Session traces: arbitrary sequences of the four operations with arbitrary
external outcomes, collecting every state pushed through setState.
------------------------------------------------------------------ -/

/-- One session operation together with the outcomes of its external calls. -/
inductive AuthOp
  | init (fetch : Except Err AuthMeResponse)
  | doLogin (cb : AuthSessionOutcome) (fetch : Except Err AuthMeResponse)
  | doLogout (server : Except Err Unit)
  | refresh (fetch : Except Err AuthMeResponse)
deriving Repr

/-- Run one operation from a state/storage pair. -/
def runAuthOp (s : AuthState) (store : AuthStorage) : AuthOp → OpResult
  | .init fetch => initializeAuth store fetch
  | .doLogin cb fetch => login s store cb fetch
  | .doLogout server => logout s store server
  | .refresh fetch => refreshUser s store fetch

/-- Run a sequence of operations, returning the final state and storage and
the concatenation of all states pushed along the way. -/
def runAuthTrace (s : AuthState) (store : AuthStorage) :
    List AuthOp → AuthState × AuthStorage × List AuthState
  | [] => (s, store, [])
  | op :: ops =>
    let r := runAuthOp s store op
    let rest := runAuthTrace r.state r.storage ops
    (rest.1, rest.2.1, r.emitted ++ rest.2.2)

/-- The authentication invariant of the spec: isAuthenticated equals
(spotifyId is non-null and user is non-null). -/
def authInvariant (s : AuthState) : Prop :=
  s.isAuthenticated = (s.spotifyId.isSome && s.user.isSome)

/-- The inductive strengthening actually maintained by the code: identity and
user presence each coincide with the authenticated flag. -/
def goodAuth (s : AuthState) : Prop :=
  s.spotifyId.isSome = s.isAuthenticated ∧ s.user.isSome = s.isAuthenticated

/- ------------------------------------------------------------------
Presence/sync channel model, SocketContext (src/unnamed/part_009).
A socket created by io() lives on after the manager drops its reference, so
the model keeps every socket ever created: alive is false once the client
called disconnect() on it, connected tracks the transport.  Every created
socket carries the handler set registered in connectSocket; sync is its
session:sync listener list (onSyncCommand registrations), identified by
numeric tokens.
------------------------------------------------------------------ -/

/-- Inbound partner-status payload (PartnerStatus of SocketContext). -/
structure PartnerStatus where
  isListening : Bool
  spotifyId : Option String
  playlistId : Option String
  playlistName : Option String
  trackUri : Option String
  trackName : Option String
  artistName : Option String
  positionMs : Option Nat
  isPlaying : Option Bool
  updatedAt : Option Nat
deriving Repr, DecidableEq

/-- One socket object created by io(). -/
structure Sock where
  alive : Bool
  connected : Bool
  sync : List Nat
deriving Repr, DecidableEq

/-- State of the SocketProvider: every socket ever created (index = creation
order), the current reference, and the three observable state fields. -/
structure SocketState where
  sockets : List Sock
  socketRef : Option Nat
  isConnected : Bool
  isPartnerOnline : Bool
  partnerStatus : Option PartnerStatus
deriving Repr, DecidableEq

/-- Initial provider state: no socket, all observables at their defaults. -/
def initialSocketState : SocketState :=
  { sockets := [], socketRef := none, isConnected := false,
    isPartnerOnline := false, partnerStatus := none }

/-- The guard of connectSocket: socketRef.current?.connected. -/
def refConnected (s : SocketState) : Bool :=
  match s.socketRef with
  | some i =>
    match s.sockets[i]? with
    | some sk => sk.connected
    | none => false
  | none => false

/-- SocketContext connectSocket: if the referenced socket is already
connected, return; otherwise create a fresh socket (connection pending)
and point socketRef at it.  The previous socket, if any, is not touched. -/
def connectSocket (s : SocketState) : SocketState :=
  if refConnected s then s
  else
    { s with
      sockets := s.sockets ++ [{ alive := true, connected := false, sync := [] }],
      socketRef := some s.sockets.length }

/-- SocketContext disconnectSocket: only when a socket reference is held,
disconnect that socket, drop the reference and reset the three observable
fields; otherwise do nothing. -/
def disconnectSocket (s : SocketState) : SocketState :=
  match s.socketRef with
  | some i =>
    { sockets := s.sockets.set i { alive := false, connected := false, sync := [] },
      socketRef := none, isConnected := false, isPartnerOnline := false,
      partnerStatus := none }
  | none => s

/-- Inbound transport/partner events a socket can fire. -/
inductive SockEvent
  | evConnect
  | evDisconnect
  | evPartnerOnline (spotifyId : String)
  | evPartnerOffline (spotifyId : String)
  | evPartnerStatus (data : PartnerStatus)
deriving Repr, DecidableEq

/-- Whether socket sk can currently fire the event: a client-disconnected
socket fires nothing; connect fires while unconnected, everything else
while connected. -/
def eventEnabled (sk : Sock) : SockEvent → Bool
  | .evConnect => sk.alive && !sk.connected
  | _ => sk.alive && sk.connected

/-- Deliver one event fired by socket i, running the handlers registered in
connectSocket (they update the provider state regardless of whether i is
the current reference). -/
def deliverEvent (s : SocketState) (i : Nat) (ev : SockEvent) : SocketState :=
  match s.sockets[i]? with
  | none => s
  | some sk =>
    if eventEnabled sk ev then
      match ev with
      | .evConnect =>
        { s with sockets := s.sockets.set i { sk with connected := true },
                 isConnected := true }
      | .evDisconnect =>
        { s with sockets := s.sockets.set i { sk with connected := false },
                 isConnected := false, isPartnerOnline := false,
                 partnerStatus := none }
      | .evPartnerOnline _ => { s with isPartnerOnline := true }
      | .evPartnerOffline _ =>
        { s with isPartnerOnline := false, partnerStatus := none }
      | .evPartnerStatus d =>
        { s with partnerStatus := some d,
                 isPartnerOnline := if d.isListening then true else s.isPartnerOnline }
    else s

/-- SocketContext onSyncCommand: register a session:sync handler (token h) on
the currently referenced socket, if any. -/
def onSyncCommand (s : SocketState) (h : Nat) : SocketState :=
  match s.socketRef with
  | some i =>
    match s.sockets[i]? with
    | some sk =>
      { s with sockets := s.sockets.set i { sk with sync := sk.sync ++ [h] } }
    | none => s
  | none => s

/-- The detach closure returned by onSyncCommand: socket.off removes that one
handler from the currently referenced socket, if any. -/
def offSyncCommand (s : SocketState) (h : Nat) : SocketState :=
  match s.socketRef with
  | some i =>
    match s.sockets[i]? with
    | some sk =>
      { s with sockets := s.sockets.set i { sk with sync := sk.sync.erase h } }
    | none => s
  | none => s

/-- Handler tokens invoked when socket i fires a session:sync event: all of
its registered handlers, in registration order, provided the socket is
connected. -/
def deliverSessionSync (s : SocketState) (i : Nat) : List Nat :=
  match s.sockets[i]? with
  | some sk => if sk.alive && sk.connected then sk.sync else []
  | none => []

/-- One step of the provider: a manager call or a socket event. -/
inductive SockAction
  | opConnect
  | opDisconnect
  | event (i : Nat) (ev : SockEvent)
deriving Repr

/-- Apply one action. -/
def sockStep (s : SocketState) : SockAction → SocketState
  | .opConnect => connectSocket s
  | .opDisconnect => disconnectSocket s
  | .event i ev => deliverEvent s i ev

/-- Run a sequence of actions from the initial provider state. -/
def runSock (acts : List SockAction) : SocketState :=
  acts.foldl sockStep initialSocketState

/-- Number of sockets whose connection is currently open. -/
def openCount (s : SocketState) : Nat :=
  (s.sockets.filter fun sk => sk.alive && sk.connected).length

/- ------------------------------------------------------------------
Concrete sample values used to instantiate theorems with hypotheses.
------------------------------------------------------------------ -/

/-- A sample persisted user record. -/
def sampleUser : StoredUser :=
  { id := "u1", spotifyId := "u1", displayName := "User One", email := none,
    images := none, partnerId := some "u2" }

/-- A sample profile-fetch response for identity u1 paired with u2. -/
def sampleResponse : AuthMeResponse :=
  { user := { id := "u1", displayName := "User One", email := none, images := none },
    partnerId := some "u2", tokenExpiresAt := "2026-01-01" }

/-- A sample partner-status payload with active listening. -/
def sampleStatus : PartnerStatus :=
  { isListening := true, spotifyId := some "u2", playlistId := some "pl",
    playlistName := some "Ours", trackUri := some "spotify:track:1",
    trackName := some "X", artistName := some "A", positionMs := some 1000,
    isPlaying := some true, updatedAt := some 42 }

/-- A sample signed-in in-memory state for identity u1. -/
def signedInState : AuthState :=
  { isLoading := false, isAuthenticated := true, user := some sampleUser,
    spotifyId := some "u1", partnerId := some "u2" }

/-- The cleared state with its loading flag raised, as pushed at the start of
login and logout. -/
def loadingClearedState : AuthState := { clearedAuthState with isLoading := true }

/-- The authenticated state reached by a successful initialize for identity
u1 answered by sampleResponse. -/
def sampleAuthedState : AuthState :=
  { isLoading := false, isAuthenticated := true,
    user := some (mkStoredUser sampleResponse), spotifyId := some "u1",
    partnerId := some "u2" }

/- ------------------------------------------------------------------
Claim theorems.
------------------------------------------------------------------ -/

/-- C10: the persisted-state reads are total at the public interface: for
every storage outcome and every JSON-parse behaviour they resolve (never
reject); a storage read error makes both return null, and a stored user
record whose JSON fails to parse also reads back as null. -/
theorem storage_reads_total (getItem : Except Err (Option String))
    (parse : String → Except Err StoredUser) :
    (getStoredSpotifyId getItem).isOk = true ∧
    (getStoredUser getItem parse).isOk = true ∧
    getStoredSpotifyId (Except.error Err.err) = Except.ok none ∧
    getStoredUser (Except.error Err.err) parse = Except.ok none ∧
    (∀ json e, parse json = Except.error e →
      getStoredUser (Except.ok (some json)) parse = Except.ok none) := by
  refine ⟨?_, ?_, rfl, rfl, ?_⟩
  case refine_3 =>
    intro json e hp
    by_cases hj : json = ""
    · simp [getStoredUser, truthyS, hj]
    · simp [getStoredUser, truthyS, hj, hp]
  · cases getItem <;> rfl
  · cases getItem with
    | error e => rfl
    | ok raw =>
      cases raw with
      | none => rfl
      | some json =>
        by_cases hj : json = ""
        · simp [getStoredUser, truthyS, hj, Except.isOk, Except.toBool]
        · cases hp : parse json <;>
            simp [getStoredUser, truthyS, hj, hp, Except.isOk, Except.toBool]

/-- Witness for C10: a stored user record that is not valid JSON (its parse
rejects) reads back as null rather than raising. -/
theorem storage_reads_total_witness :
    getStoredUser (Except.ok (some "not json"))
        (fun _ => Except.error Err.err) = Except.ok none :=
  (storage_reads_total (Except.ok (some "not json"))
    (fun _ => Except.error Err.err)).2.2.2.2 "not json" Err.err rfl

/-- C2: logout always ends signed out: for every starting state, storage and
server-side outcome (success or rejection) the final state is the cleared
unauthenticated one, persisted storage is empty, and the operation never
rejects. -/
theorem logout_always_clears (prev : AuthState) (store : AuthStorage)
    (server : Except Err Unit) :
    (logout prev store server).state = clearedAuthState ∧
    (logout prev store server).storage = emptyAuthStorage ∧
    (logout prev store server).threw = false := by
  by_cases h : truthyS prev.spotifyId
  · cases server <;> simp [logout, h, clearAuthData]
  · simp [logout, h, clearAuthData]

/-- C1: with a persisted (identity, user) pair present, initializeAuth ends
authenticated exactly when the profile fetch succeeds, and on fetch
failure it ends in the cleared unauthenticated state with both persisted
records removed. -/
theorem initializeAuth_auth_iff_fetch_ok (store : AuthStorage)
    (fetch : Except Err AuthMeResponse) (id : String) (u : StoredUser)
    (hid : store.spotifyId = some id) (hne : id ≠ "")
    (hu : store.userData = some u) :
    ((initializeAuth store fetch).state.isAuthenticated = true ↔
      fetch.isOk = true) ∧
    (∀ e, fetch = .error e →
      (initializeAuth store fetch).state = clearedAuthState ∧
      (initializeAuth store fetch).storage = emptyAuthStorage) := by
  have hguard : (truthyS store.spotifyId && store.userData.isSome) = true := by
    simp [hid, hu, truthyS, hne]
  cases fetch with
  | ok r =>
    refine ⟨?_, ?_⟩
    · simp [initializeAuth, hguard, Except.isOk, Except.toBool]
    · intro e he; cases he
  | error e =>
    refine ⟨?_, ?_⟩
    · simp [initializeAuth, hguard, clearedAuthState, Except.isOk, Except.toBool]
    · intro e2 _
      simp [initializeAuth, hguard, clearAuthData]

/-- Witness for C1 at the pair (u1, sampleUser): authenticated after a
successful fetch, cleared state and empty storage after a failed fetch. -/
theorem initializeAuth_auth_iff_fetch_ok_witness :
    (initializeAuth { spotifyId := some "u1", userData := some sampleUser }
        (Except.ok sampleResponse)).state.isAuthenticated = true ∧
    (initializeAuth { spotifyId := some "u1", userData := some sampleUser }
        (Except.error Err.err)).state = clearedAuthState ∧
    (initializeAuth { spotifyId := some "u1", userData := some sampleUser }
        (Except.error Err.err)).storage = emptyAuthStorage := by
  refine ⟨?_, ?_, ?_⟩
  · exact (initializeAuth_auth_iff_fetch_ok _ _ "u1" sampleUser rfl
      (by decide) rfl).1.mpr rfl
  · exact ((initializeAuth_auth_iff_fetch_ok _ _ "u1" sampleUser rfl
      (by decide) rfl).2 Err.err rfl).1
  · exact ((initializeAuth_auth_iff_fetch_ok _ _ "u1" sampleUser rfl
      (by decide) rfl).2 Err.err rfl).2

/-- C8: refreshUser is a no-op without a truthy identity; a failed fetch
changes nothing at all; a successful fetch only rewrites the user and
partnerId fields (and the persisted user record), leaving isLoading,
isAuthenticated and spotifyId untouched. -/
theorem refreshUser_frame (prev : AuthState) (store : AuthStorage)
    (fetch : Except Err AuthMeResponse) :
    (truthyS prev.spotifyId = false →
      refreshUser prev store fetch =
        { state := prev, storage := store, emitted := [], threw := false }) ∧
    (∀ e, fetch = .error e →
      refreshUser prev store fetch =
        { state := prev, storage := store, emitted := [], threw := false }) ∧
    (∀ r, fetch = .ok r → truthyS prev.spotifyId = true →
      (refreshUser prev store fetch).state.isLoading = prev.isLoading ∧
      (refreshUser prev store fetch).state.isAuthenticated = prev.isAuthenticated ∧
      (refreshUser prev store fetch).state.spotifyId = prev.spotifyId ∧
      (refreshUser prev store fetch).state.user = some (mkStoredUser r) ∧
      (refreshUser prev store fetch).state.partnerId = r.partnerId ∧
      (refreshUser prev store fetch).storage = setStoredUser (mkStoredUser r) store) := by
  refine ⟨?_, ?_, ?_⟩
  · intro h; simp [refreshUser, h]
  · intro e he; subst he
    by_cases h : truthyS prev.spotifyId <;> simp [refreshUser, h]
  · intro r hr ht; subst hr
    simp [refreshUser, ht]

/-- Witness for C8: no identity held means a literal no-op; a failed fetch
leaves everything as it was; a successful fetch keeps the state
authenticated. -/
theorem refreshUser_frame_witness :
    refreshUser clearedAuthState emptyAuthStorage (Except.ok sampleResponse) =
      { state := clearedAuthState, storage := emptyAuthStorage, emitted := [],
        threw := false } ∧
    refreshUser signedInState emptyAuthStorage (Except.error Err.err) =
      { state := signedInState, storage := emptyAuthStorage, emitted := [],
        threw := false } ∧
    (refreshUser signedInState emptyAuthStorage
        (Except.ok sampleResponse)).state.isAuthenticated = true := by
  refine ⟨?_, ?_, ?_⟩
  · exact (refreshUser_frame clearedAuthState emptyAuthStorage _).1 (by decide)
  · exact (refreshUser_frame signedInState emptyAuthStorage _).2.1 Err.err rfl
  · have h := ((refreshUser_frame signedInState emptyAuthStorage
      (Except.ok sampleResponse)).2.2 sampleResponse rfl (by decide)).2.1
    simpa using h

/-- C4 (failing input): a success callback whose URL carries no truthy
spotifyId parameter makes login resolve normally: the state is left
unauthenticated, nothing is persisted, and no error is surfaced to the
caller (threw = false), both for an absent parameter and for an empty
one. -/
theorem login_missing_identity_is_silent :
    login clearedAuthState emptyAuthStorage (AuthSessionOutcome.success none)
        (Except.ok sampleResponse) =
      { state := clearedAuthState, storage := emptyAuthStorage,
        emitted := [loadingClearedState, clearedAuthState], threw := false } ∧
    login clearedAuthState emptyAuthStorage
        (AuthSessionOutcome.success (some "")) (Except.ok sampleResponse) =
      { state := clearedAuthState, storage := emptyAuthStorage,
        emitted := [loadingClearedState, clearedAuthState], threw := false } := by
  constructor <;> rfl

/-- C6: an inbound partner-status event fired by a live connected socket
replaces partnerStatus wholesale with the new payload, whatever the
previous snapshot was, and forces isPartnerOnline when the payload
reports active listening. -/
theorem partnerStatus_wholesale (s : SocketState) (i : Nat) (sk : Sock)
    (d : PartnerStatus) (hget : s.sockets[i]? = some sk)
    (halive : sk.alive = true) (hconn : sk.connected = true) :
    (deliverEvent s i (.evPartnerStatus d)).partnerStatus = some d ∧
    (d.isListening = true →
      (deliverEvent s i (.evPartnerStatus d)).isPartnerOnline = true) := by
  constructor
  · simp [deliverEvent, hget, eventEnabled, halive, hconn]
  · intro h
    simp [deliverEvent, hget, eventEnabled, halive, hconn, h]

/-- Witness for C6: after connect and the transport handshake, with no prior
partner event at all, a listening status payload installs itself and
forces the partner online. -/
theorem partnerStatus_wholesale_witness :
    (deliverEvent (runSock [SockAction.opConnect,
        SockAction.event 0 SockEvent.evConnect]) 0
        (SockEvent.evPartnerStatus sampleStatus)).partnerStatus
      = some sampleStatus ∧
    (deliverEvent (runSock [SockAction.opConnect,
        SockAction.event 0 SockEvent.evConnect]) 0
        (SockEvent.evPartnerStatus sampleStatus)).isPartnerOnline = true := by
  constructor
  · exact (partnerStatus_wholesale _ 0
      { alive := true, connected := true, sync := [] } sampleStatus
      (by decide) rfl rfl).1
  · exact (partnerStatus_wholesale _ 0
      { alive := true, connected := true, sync := [] } sampleStatus
      (by decide) rfl rfl).2 rfl

/-- C3 (counterexample): two connect calls in immediate succession, before
the first transport handshake completes, create a second socket without
tearing the first down; once both handshakes complete, two connections
are open at once, not one. -/
theorem connect_twice_leaves_two_open :
    openCount (runSock [SockAction.opConnect, SockAction.opConnect,
      SockAction.event 0 SockEvent.evConnect,
      SockAction.event 1 SockEvent.evConnect]) = 2 ∧
    (runSock [SockAction.opConnect,
        SockAction.opConnect]).sockets[0]?
      = some { alive := true, connected := false, sync := [] } := by decide

/-- C3 (amended): connect is a no-op exactly when the currently referenced
socket is already connected, so a second connect after the first
connection has opened leaves the manager state, and hence the single open
connection, unchanged. -/
theorem connectSocket_noop_when_connected (s : SocketState)
    (h : refConnected s = true) : connectSocket s = s := by
  simp [connectSocket, h]

/-- Witness for the amended C3: after connect and a completed handshake, a
second connect changes nothing. -/
theorem connectSocket_noop_when_connected_witness :
    connectSocket (runSock [SockAction.opConnect,
        SockAction.event 0 SockEvent.evConnect])
      = runSock [SockAction.opConnect, SockAction.event 0 SockEvent.evConnect] :=
  connectSocket_noop_when_connected _ (by decide)

/-- C7 (counterexample): after a double connect, a disconnect and a late
handshake of the orphaned first socket, the manager holds no reference,
so a further disconnect is a no-op and returns with isConnected still
true. -/
theorem disconnect_skips_reset_without_ref :
    (runSock [SockAction.opConnect, SockAction.opConnect,
      SockAction.opDisconnect, SockAction.event 0 SockEvent.evConnect,
      SockAction.opDisconnect]).isConnected = true := by decide

/-- C7 (amended): disconnect is idempotent, and whenever the manager holds a
socket reference it resets isConnected, isPartnerOnline and partnerStatus
to their defaults; when no reference is held it is a no-op and resets
nothing. -/
theorem disconnectSocket_resets_when_ref_held (s : SocketState) :
    (s.socketRef.isSome = true →
      (disconnectSocket s).isConnected = false ∧
      (disconnectSocket s).isPartnerOnline = false ∧
      (disconnectSocket s).partnerStatus = none) ∧
    disconnectSocket (disconnectSocket s) = disconnectSocket s := by
  cases h : s.socketRef with
  | some i => simp [disconnectSocket, h]
  | none => simp [disconnectSocket, h]

/-- Witness for the amended C7: with a connection open and a reference held,
disconnect resets all three observable fields. -/
theorem disconnectSocket_resets_when_ref_held_witness :
    (disconnectSocket (runSock [SockAction.opConnect,
        SockAction.event 0 SockEvent.evConnect])).isConnected = false ∧
    (disconnectSocket (runSock [SockAction.opConnect,
        SockAction.event 0 SockEvent.evConnect])).isPartnerOnline = false ∧
    (disconnectSocket (runSock [SockAction.opConnect,
        SockAction.event 0 SockEvent.evConnect])).partnerStatus = none :=
  (disconnectSocket_resets_when_ref_held _).1 (by decide)

/-- C9: registering two session:sync handlers and then invoking the detach
of the first removes only the first: the surviving handler list is the
old one extended by the second handler, and the second handler is among
those invoked on the next session:sync event. -/
theorem onSyncCommand_detach_independent (s : SocketState) (i : Nat)
    (sk : Sock) (h1 h2 : Nat) (href : s.socketRef = some i)
    (hget : s.sockets[i]? = some sk) (halive : sk.alive = true)
    (hconn : sk.connected = true) (hfresh : h1 ∉ sk.sync) :
    deliverSessionSync
        (offSyncCommand (onSyncCommand (onSyncCommand s h1) h2) h1) i
      = sk.sync ++ [h2] ∧
    h2 ∈ deliverSessionSync
        (offSyncCommand (onSyncCommand (onSyncCommand s h1) h2) h1) i := by
  have hlt : i < s.sockets.length := (List.getElem?_eq_some.mp hget).1
  have herase : (sk.sync ++ [h1, h2]).erase h1 = sk.sync ++ [h2] := by
    rw [List.erase_append_right _ hfresh]
    simp [List.erase_cons_head]
  have hfin : offSyncCommand (onSyncCommand (onSyncCommand s h1) h2) h1 =
      { s with sockets := s.sockets.set i { sk with sync := sk.sync ++ [h2] } } := by
    simp [onSyncCommand, offSyncCommand, href, hget,
      List.getElem?_set_eq_of_lt, hlt, List.set_set, herase]
  rw [hfin]
  constructor
  · simp [deliverSessionSync, List.getElem?_set_eq_of_lt, hlt, halive, hconn]
  · simp [deliverSessionSync, List.getElem?_set_eq_of_lt, hlt, halive, hconn]

/-- Witness for C9: on a freshly connected socket, register handlers 1 and 2,
detach 1; handler 2 is still invoked by the next session:sync event. -/
theorem onSyncCommand_detach_independent_witness :
    deliverSessionSync (offSyncCommand (onSyncCommand (onSyncCommand
        (runSock [SockAction.opConnect, SockAction.event 0 SockEvent.evConnect])
        1) 2) 1) 0 = [2] ∧
    2 ∈ deliverSessionSync (offSyncCommand (onSyncCommand (onSyncCommand
        (runSock [SockAction.opConnect, SockAction.event 0 SockEvent.evConnect])
        1) 2) 1) 0 := by
  constructor
  · exact (onSyncCommand_detach_independent _ 0
      { alive := true, connected := true, sync := [] } 1 2
      (by decide) (by decide) rfl rfl (by decide)).1
  · exact (onSyncCommand_detach_independent _ 0
      { alive := true, connected := true, sync := [] } 1 2
      (by decide) (by decide) rfl rfl (by decide)).2

/-- A truthy nullable string is non-null. -/
theorem truthyS_isSome (o : Option String) (h : truthyS o = true) :
    o.isSome = true := by
  cases o with
  | none => simp [truthyS] at h
  | some v => rfl

/-- The strengthened invariant implies the spec's invariant. -/
theorem goodAuth_implies_authInvariant (s : AuthState) (h : goodAuth s) :
    authInvariant s := by
  obtain ⟨a, b⟩ := h
  unfold authInvariant
  rw [a, b, Bool.and_self]

/-- One session operation preserves the strengthened invariant, on its final
state and on every state it pushes. -/
theorem goodAuth_runAuthOp (s : AuthState) (store : AuthStorage) (op : AuthOp)
    (hs : goodAuth s) :
    goodAuth (runAuthOp s store op).state ∧
    ∀ x ∈ (runAuthOp s store op).emitted, goodAuth x := by
  obtain ⟨h1, h2⟩ := hs
  cases op with
  | init fetch =>
    simp only [runAuthOp, initializeAuth]
    cases hg : (truthyS store.spotifyId && store.userData.isSome) with
    | true =>
      have hsome : store.spotifyId.isSome = true :=
        truthyS_isSome _ (Bool.and_elim_left hg)
      cases fetch with
      | ok r => simp [goodAuth, hsome, hg]
      | error e => simp [goodAuth, clearedAuthState, hg]
    | false => simp [goodAuth, clearedAuthState, hg]
  | doLogin cb fetch =>
    simp only [runAuthOp, login]
    cases cb with
    | success p =>
      cases ht : truthyS p with
      | true =>
        cases p with
        | none => simp [truthyS] at ht
        | some id =>
          cases fetch with
          | ok r => simp [goodAuth, h1, h2, ht]
          | error e => simp [goodAuth, h1, h2, ht]
      | false => simp [goodAuth, h1, h2, ht]
    | other => simp [goodAuth, h1, h2]
  | doLogout server =>
    simp only [runAuthOp, logout]
    cases hsp : truthyS s.spotifyId with
    | true =>
      cases server with
      | ok u => simp [goodAuth, clearedAuthState, h1, h2, hsp]
      | error e => simp [goodAuth, clearedAuthState, h1, h2, hsp]
    | false => simp [goodAuth, clearedAuthState, h1, h2, hsp]
  | refresh fetch =>
    simp only [runAuthOp, refreshUser]
    cases hsp : truthyS s.spotifyId with
    | true =>
      have hauth : s.isAuthenticated = true := by
        rw [← h1]; exact truthyS_isSome _ hsp
      cases fetch with
      | ok r => simp [goodAuth, h1, h2, hauth, hsp]
      | error e => simp [goodAuth, h1, h2, hsp]
    | false => simp [goodAuth, h1, h2, hsp]

/-- A whole trace of session operations preserves the strengthened
invariant. -/
theorem goodAuth_runAuthTrace (ops : List AuthOp) (s : AuthState)
    (store : AuthStorage) (hs : goodAuth s) :
    goodAuth (runAuthTrace s store ops).1 ∧
    ∀ x ∈ (runAuthTrace s store ops).2.2, goodAuth x := by
  induction ops generalizing s store with
  | nil => exact ⟨hs, by intro x hx; simp [runAuthTrace] at hx⟩
  | cons op ops ih =>
    obtain ⟨hop, hemit⟩ := goodAuth_runAuthOp s store op hs
    obtain ⟨hfin, hrest⟩ :=
      ih (runAuthOp s store op).state (runAuthOp s store op).storage hop
    refine ⟨hfin, ?_⟩
    intro x hx
    simp only [runAuthTrace, List.mem_append] at hx
    rcases hx with hx | hx
    · exact hemit x hx
    · exact hrest x hx

/-- C5: the invariant isAuthenticated = (spotifyId non-null and user
non-null) holds in the initial session state, in every state pushed
through setState by any sequence of session operations (initialize,
login, logout, refreshUser) with any outcomes of their external calls, in
both success and failure branches, and in the final state of the
sequence. -/
theorem authInvariant_always_holds (store : AuthStorage) (ops : List AuthOp) :
    authInvariant initialAuthState ∧
    (∀ x ∈ (runAuthTrace initialAuthState store ops).2.2, authInvariant x) ∧
    authInvariant (runAuthTrace initialAuthState store ops).1 := by
  have h0 : goodAuth initialAuthState := ⟨rfl, rfl⟩
  obtain ⟨hfin, hall⟩ := goodAuth_runAuthTrace ops initialAuthState store h0
  exact ⟨goodAuth_implies_authInvariant _ h0,
    fun x hx => goodAuth_implies_authInvariant x (hall x hx),
    goodAuth_implies_authInvariant _ hfin⟩

/-- Witness for C5: the invariant holds initially, in the authenticated
state pushed by a successful initialize for the persisted pair (u1,
sampleUser), and in the final state of that trace. -/
theorem authInvariant_always_holds_witness :
    authInvariant initialAuthState ∧
    authInvariant sampleAuthedState ∧
    authInvariant (runAuthTrace initialAuthState
      { spotifyId := some "u1", userData := some sampleUser }
      [AuthOp.init (Except.ok sampleResponse)]).1 := by
  refine ⟨(authInvariant_always_holds emptyAuthStorage []).1, ?_, ?_⟩
  · exact (authInvariant_always_holds
      { spotifyId := some "u1", userData := some sampleUser }
      [AuthOp.init (Except.ok sampleResponse)]).2.1 sampleAuthedState (by decide)
  · exact (authInvariant_always_holds
      { spotifyId := some "u1", userData := some sampleUser }
      [AuthOp.init (Except.ok sampleResponse)]).2.2

end Echoes
